import Mathlib

/-!
# Verification of the KPI analysis pipeline

A shallow embedding of the two scripts of the repository:

* `calculate_kpis.py` — loads an income statement and a balance sheet,
  renames two balance-sheet columns in place, inner-merges the two tables
  on `Year`, derives ten financial ratio columns by elementwise division,
  and persists the result as `kpi_table.csv`.
* `visualize_trends.py` — `build_kpi_table` mirrors the same pipeline;
  `load_or_build_kpi_table` returns the persisted artifact when present,
  otherwise builds; `plot_trend` renders one line chart after checking
  that the `Year` column and the requested column are present;
  `generate_trend_charts` runs `plot_trend` over four hardcoded chart
  specifications.

Tables are modelled column-oriented, as pandas stores them: a data frame
is an ordered association list from column name to the list of the
column's cell values.  Cell values follow floating-point semantics for
the operations the scripts use (subtraction and division, including
division by zero and missing values), with exact rationals standing for
the finite values.
-/

set_option autoImplicit false

namespace KpiAnalysis

/-- A cell value of a data frame, with floating-point-like semantics:
a finite number (represented exactly as a rational), a signed infinity
(`pos = true` for `+∞`), or `NaN` (also the representation pandas uses
for a missing value). -/
inductive FVal where
  | num (q : ℚ)
  | inf (pos : Bool)
  | nan
  deriving DecidableEq, Repr

/-- Floating-point subtraction on cell values: finite values subtract
exactly, `NaN` propagates, `∞ − ∞` is `NaN`, and an infinity dominates a
finite operand. -/
def FVal.sub : FVal → FVal → FVal
  | .nan, _ => .nan
  | _, .nan => .nan
  | .num a, .num b => .num (a - b)
  | .num _, .inf b => .inf (!b)
  | .inf a, .num _ => .inf a
  | .inf a, .inf b => if a = b then .nan else .inf a

/-- Floating-point division on cell values: finite by finite nonzero is
exact, `x / 0` is a signed infinity for finite nonzero `x` and `NaN` for
`x = 0`, a finite value over an infinity is `0`, an infinity over a
finite value stays infinite (with the sign rule), `∞ / ∞` is `NaN`, and
`NaN` propagates.  This is the semantics pandas applies when a
denominator is zero or missing: no exception is raised. -/
def FVal.div : FVal → FVal → FVal
  | .nan, _ => .nan
  | _, .nan => .nan
  | .num a, .num b =>
      if b = 0 then (if a = 0 then .nan else .inf (decide (0 < a)))
      else .num (a / b)
  | .num _, .inf _ => .num 0
  | .inf s, .num b => if b < 0 then .inf (!s) else .inf s
  | .inf _, .inf _ => .nan

/-- A data frame, column-oriented as in pandas: an ordered list of
(column name, cell values) pairs.  Row `k` of the frame is the `k`-th
entry of every column. -/
abbrev DataFrame := List (String × List FVal)

/-- Column selection `df[c]`: the first column named `c`.  A missing
column is a `KeyError` carrying the column name, modelled as
`Except.error c`. -/
def getCol (df : DataFrame) (c : String) : Except String (List FVal) :=
  match df.find? (fun p => p.1 == c) with
  | some p => Except.ok p.2
  | none => Except.error c

/-- Whether a column named `c` exists (`c in df.columns`). -/
def hasCol (df : DataFrame) (c : String) : Bool :=
  df.any (fun p => p.1 == c)

/-- Column assignment `df[c] = vs`: replaces the values of an existing
column `c` in place, and otherwise appends `c` as a new last column —
pandas' semantics for item assignment on a data frame. -/
def setCol (df : DataFrame) (c : String) (vs : List FVal) : DataFrame :=
  if hasCol df c then
    df.map (fun p => if p.1 == c then (c, vs) else p)
  else
    df ++ [(c, vs)]

/-- The column-name mapping passed to `balance.rename`:
`TotalCurrentAssets → CurrentAssets` and
`TotalCurrentLiabilities → CurrentLiabilities`; every other name is
kept.  pandas `rename` silently ignores mapping keys that do not occur. -/
def renameName (n : String) : String :=
  if n == "TotalCurrentAssets" then "CurrentAssets"
  else if n == "TotalCurrentLiabilities" then "CurrentLiabilities"
  else n

/-- `balance.rename(columns={...})`: applies `renameName` to every
column name, keeping values and column order. -/
def renameBalance (df : DataFrame) : DataFrame :=
  df.map (fun p => (renameName p.1, p.2))

/-- The row pairs selected by an inner merge on the key columns
`yL` (left) and `yR` (right): for each left row in source order, one
pair per right row with an equal key, in right source order.  This is
pandas' inner-merge row order (left key order preserved). -/
def joinIdx (yL yR : List FVal) : List (Nat × Nat) :=
  (List.range yL.length).flatMap (fun i =>
    (List.range yR.length).filterMap (fun j =>
      if yL.getD i FVal.nan = yR.getD j FVal.nan then some (i, j) else none))

/-- A left column of the merge result: the left column's values at the
left indices of the selected row pairs. -/
def leftJoined (yL yR vals : List FVal) : List FVal :=
  (joinIdx yL yR).map (fun ij => vals.getD ij.1 FVal.nan)

/-- A right column of the merge result: the right column's values at the
right indices of the selected row pairs. -/
def rightJoined (yL yR vals : List FVal) : List FVal :=
  (joinIdx yL yR).map (fun ij => vals.getD ij.2 FVal.nan)

/-- `income.merge(balance, on="Year")`: an inner join on `Year`.  The
result keeps every left column (in left order, `Year` staying at its
left position), then every right column except `Year` (in right order).
A missing `Year` column on either side is a `KeyError`. -/
def mergeOnYear (income balance : DataFrame) : Except String DataFrame := do
  let yL ← getCol income "Year"
  let yR ← getCol balance "Year"
  Except.ok
    (income.map (fun p => (p.1, leftJoined yL yR p.2)) ++
      (balance.filter (fun p => p.1 != "Year")).map
        (fun p => (p.1, rightJoined yL yR p.2)))

/-- `df[new] = df[a] op df[b]`: elementwise derivation of a column from
two existing columns; a missing operand column is a `KeyError`. -/
def deriveCol (df : DataFrame) (new a b : String) (op : FVal → FVal → FVal) :
    Except String DataFrame := do
  let va ← getCol df a
  let vb ← getCol df b
  Except.ok (setCol df new (List.zipWith op va vb))

/-- `df["QuickRatio"] = (df["CurrentAssets"] - df["Inventory"]) /
df["CurrentLiabilities"]` — the one three-operand derivation. -/
def deriveQuick (df : DataFrame) : Except String DataFrame := do
  let ca ← getCol df "CurrentAssets"
  let inv ← getCol df "Inventory"
  let cl ← getCol df "CurrentLiabilities"
  Except.ok (setCol df "QuickRatio"
    (List.zipWith FVal.div (List.zipWith FVal.sub ca inv) cl))

/-- The module-level pipeline of `calculate_kpis.py` after the two
input CSVs are loaded: rename the balance columns, inner-merge on
`Year`, then derive the ten ratio columns in source order. -/
def calculateKpisPipeline (income balance : DataFrame) :
    Except String DataFrame := do
  let balance := renameBalance balance
  let df ← mergeOnYear income balance
  let df ← deriveCol df "OperatingMargin" "OperatingIncome" "Revenue" FVal.div
  let df ← deriveCol df "NetMargin" "NetIncome" "Revenue" FVal.div
  let df ← deriveCol df "ROA" "NetIncome" "TotalAssets" FVal.div
  let df ← deriveCol df "ROE" "NetIncome" "TotalEquity" FVal.div
  let df ← deriveCol df "CurrentRatio" "CurrentAssets" "CurrentLiabilities" FVal.div
  let df ← deriveQuick df
  let df ← deriveCol df "DebtToEquity" "TotalLiabilities" "TotalEquity" FVal.div
  let df ← deriveCol df "InterestCoverage" "OperatingIncome" "InterestExpense" FVal.div
  let df ← deriveCol df "AssetTurnover" "Revenue" "TotalAssets" FVal.div
  let df ← deriveCol df "ReceivablesTurnover" "Revenue" "AccountsReceivable" FVal.div
  Except.ok df

/-- `build_kpi_table` of `visualize_trends.py` (the part after reading
the two input CSVs): the same rename, merge and ten derivations, kept as
a separate transcription because the source duplicates the logic. -/
def build_kpi_table (income balance : DataFrame) :
    Except String DataFrame := do
  let balance := renameBalance balance
  let df ← mergeOnYear income balance
  let df ← deriveCol df "OperatingMargin" "OperatingIncome" "Revenue" FVal.div
  let df ← deriveCol df "NetMargin" "NetIncome" "Revenue" FVal.div
  let df ← deriveCol df "ROA" "NetIncome" "TotalAssets" FVal.div
  let df ← deriveCol df "ROE" "NetIncome" "TotalEquity" FVal.div
  let df ← deriveCol df "CurrentRatio" "CurrentAssets" "CurrentLiabilities" FVal.div
  let df ← deriveQuick df
  let df ← deriveCol df "DebtToEquity" "TotalLiabilities" "TotalEquity" FVal.div
  let df ← deriveCol df "InterestCoverage" "OperatingIncome" "InterestExpense" FVal.div
  let df ← deriveCol df "AssetTurnover" "Revenue" "TotalAssets" FVal.div
  let df ← deriveCol df "ReceivablesTurnover" "Revenue" "AccountsReceivable" FVal.div
  Except.ok df

/-- An income table with the canonical schema of
`comcast_income_statement.csv` (column names and order fixed, cell
values arbitrary). -/
def mkIncome (ys rs ois nis ies : List FVal) : DataFrame :=
  [("Year", ys), ("Revenue", rs), ("OperatingIncome", ois),
   ("NetIncome", nis), ("InterestExpense", ies)]

/-- A balance table with the canonical schema of
`comcast_balance_sheet.csv` (column names and order fixed, cell values
arbitrary). -/
def mkBalance (ys tas tes tls invs ars tcas tcls : List FVal) : DataFrame :=
  [("Year", ys), ("TotalAssets", tas), ("TotalEquity", tes),
   ("TotalLiabilities", tls), ("Inventory", invs),
   ("AccountsReceivable", ars), ("TotalCurrentAssets", tcas),
   ("TotalCurrentLiabilities", tcls)]

/-- A balance table whose `TotalCurrentAssets` source column is absent
(all other canonical columns present, in source order). -/
def mkBalanceNoTCA (ys tas tes tls invs ars tcls : List FVal) : DataFrame :=
  [("Year", ys), ("TotalAssets", tas), ("TotalEquity", tes),
   ("TotalLiabilities", tls), ("Inventory", invs),
   ("AccountsReceivable", ars), ("TotalCurrentLiabilities", tcls)]

/-- A balance table whose `TotalCurrentLiabilities` source column is
absent (all other canonical columns present, in source order). -/
def mkBalanceNoTCL (ys tas tes tls invs ars tcas : List FVal) : DataFrame :=
  [("Year", ys), ("TotalAssets", tas), ("TotalEquity", tes),
   ("TotalLiabilities", tls), ("Inventory", invs),
   ("AccountsReceivable", ars), ("TotalCurrentAssets", tcas)]

/-- The number of rows of a data frame (`len(df)`): the length of its
first column; every column of a merged table has the same length. -/
def nRows (df : DataFrame) : Nat :=
  match df with
  | [] => 0
  | p :: _ => p.2.length

/-- The cell of column `c` at row `k` (`df[c][k]`), with `NaN` standing
in for an out-of-range access or a missing column. -/
def cell (df : DataFrame) (c : String) (k : Nat) : FVal :=
  match getCol df c with
  | Except.ok vs => vs.getD k FVal.nan
  | Except.error _ => FVal.nan

/-- The in-memory state of the two loaded input tables once the build
pipeline has completed.  The pipeline never assigns into `income`; it
runs `balance.rename(columns={...}, inplace=True)`, which mutates the
loaded balance table's column names in place (both in
`calculate_kpis.py` and in `build_kpi_table`); `income.merge` and the
column assignments on the merge result create and mutate only the new
frame `df`. -/
def pipelineFinalState (income balance : DataFrame) : DataFrame × DataFrame :=
  (income, renameBalance balance)

/-- Rendering of one cell for `df.to_csv`: finite values print their
numeral, infinities print as `inf`/`-inf`, and a missing value prints
as an empty field. -/
def showFVal : FVal → String
  | FVal.num q => toString q
  | FVal.inf true => "inf"
  | FVal.inf false => "-inf"
  | FVal.nan => ""

/-- `df.to_csv(path, index=False)`: a header line of the column names
followed by one comma-separated line per row, in row order. -/
def toCsv (df : DataFrame) : String :=
  String.intercalate "," (df.map Prod.fst) ++ "\n" ++
    String.intercalate "\n"
      ((List.range (nRows df)).map (fun k =>
        String.intercalate "," (df.map (fun p => showFVal (p.2.getD k FVal.nan)))))

/-- One run of the build with its persisted artifact: `artifact` is the
prior contents of `output/kpi_table.csv` (`none` when absent).  On
success the table is written there with overwrite semantics; a raised
`KeyError` aborts the run before `to_csv`, leaving the artifact as it
was. -/
def build_and_persist (artifact : Option String) (income balance : DataFrame) :
    Option String × Except String DataFrame :=
  match build_kpi_table income balance with
  | Except.ok df => (some (toCsv df), Except.ok df)
  | Except.error e => (artifact, Except.error e)

/-- `load_or_build_kpi_table`: when the persisted KPI-table artifact
exists it is loaded and returned as-is (no re-validation, no staleness
check); otherwise `build_kpi_table` is invoked and its result returned.
The artifact slot stands for `output/kpi_table.csv` (`none` when the
file does not exist). -/
def load_or_build_kpi_table (artifact : Option DataFrame)
    (income balance : DataFrame) : Except String DataFrame :=
  match artifact with
  | some t => Except.ok t
  | none => build_kpi_table income balance

/-- Whether a call to `load_or_build_kpi_table` reaches the
`build_kpi_table` call: only the branch where the artifact is absent
does. -/
def invokesBuilder (artifact : Option DataFrame) : Bool :=
  artifact.isNone

/-- A rendered line chart: x values (`Year` column), y values (the KPI
column), the title derived from the column name, and the y-axis label. -/
structure Chart where
  xs : List FVal
  ys : List FVal
  title : String
  ylabel : String
  deriving DecidableEq, Repr

/-- The chart artifacts present in the output directory, by file name. -/
abbrev ChartStore := List (String × Chart)

/-- Writing a chart image: overwrites an artifact of the same name and
otherwise adds a new one. -/
def writeArtifact (fs : ChartStore) (name : String) (ch : Chart) : ChartStore :=
  if fs.any (fun p => p.1 == name) then
    fs.map (fun p => if p.1 == name then (name, ch) else p)
  else
    fs ++ [(name, ch)]

/-- The values of a column known to be present (used only under a
`hasCol` guard). -/
def colValsD (df : DataFrame) (c : String) : List FVal :=
  match df.find? (fun p => p.1 == c) with
  | some p => p.2
  | none => []

/-- `plot_trend(df, kpi_column, ylabel, output_filename)`: raises a
`ValueError` naming the missing column when `Year` or the requested
column is absent (modelled as `Except.error` carrying the column name,
checked in source order: `Year` first); otherwise renders the line
chart and writes it to the output file.  Both checks precede any
drawing or saving, so nothing is written on failure. -/
def plot_trend (fs : ChartStore) (df : DataFrame)
    (kpi_column ylabel output_filename : String) : Except String ChartStore :=
  if !(hasCol df "Year") then Except.error "Year"
  else if !(hasCol df kpi_column) then Except.error kpi_column
  else Except.ok (writeArtifact fs output_filename
    { xs := colValsD df "Year", ys := colValsD df kpi_column,
      title := kpi_column ++ " Trend Over Time", ylabel := ylabel })

/-- One entry of the hardcoded chart list of `generate_trend_charts`. -/
structure ChartSpec where
  column : String
  ylabel : String
  filename : String

/-- The fixed chart list of `generate_trend_charts`, in source order. -/
def chartList : List ChartSpec :=
  [{ column := "OperatingMargin", ylabel := "Operating Margin",
     filename := "operating_margin_trend.png" },
   { column := "NetMargin", ylabel := "Net Margin",
     filename := "net_margin_trend.png" },
   { column := "ROE", ylabel := "Return on Equity",
     filename := "roe_trend.png" },
   { column := "DebtToEquity", ylabel := "Debt-to-Equity",
     filename := "debt_to_equity_trend.png" }]

/-- `generate_trend_charts(df)`: calls `plot_trend` once per entry of
the chart list, in order, threading the output directory; a raised
error is not caught here and aborts the remaining charts. -/
def generate_trend_charts (fs : ChartStore) (df : DataFrame) :
    Except String ChartStore :=
  chartList.foldlM
    (fun fs ch => plot_trend fs df ch.column ch.ylabel ch.filename) fs

/-- The table after the merge for the `mkBalance` input shape (12 columns) -/
def kpiTabMerge (ys rs ois nis ies yb tas tes tls invs ars tcas tcls : List FVal) : DataFrame :=
  [("Year", leftJoined ys yb ys),
   ("Revenue", leftJoined ys yb rs),
   ("OperatingIncome", leftJoined ys yb ois),
   ("NetIncome", leftJoined ys yb nis),
   ("InterestExpense", leftJoined ys yb ies),
   ("TotalAssets", rightJoined ys yb tas),
   ("TotalEquity", rightJoined ys yb tes),
   ("TotalLiabilities", rightJoined ys yb tls),
   ("Inventory", rightJoined ys yb invs),
   ("AccountsReceivable", rightJoined ys yb ars),
   ("CurrentAssets", rightJoined ys yb tcas),
   ("CurrentLiabilities", rightJoined ys yb tcls)]

/-- The table after deriving OperatingMargin for the `mkBalance` input shape (13 columns) -/
def kpiTabStep1 (ys rs ois nis ies yb tas tes tls invs ars tcas tcls : List FVal) : DataFrame :=
  [("Year", leftJoined ys yb ys),
   ("Revenue", leftJoined ys yb rs),
   ("OperatingIncome", leftJoined ys yb ois),
   ("NetIncome", leftJoined ys yb nis),
   ("InterestExpense", leftJoined ys yb ies),
   ("TotalAssets", rightJoined ys yb tas),
   ("TotalEquity", rightJoined ys yb tes),
   ("TotalLiabilities", rightJoined ys yb tls),
   ("Inventory", rightJoined ys yb invs),
   ("AccountsReceivable", rightJoined ys yb ars),
   ("CurrentAssets", rightJoined ys yb tcas),
   ("CurrentLiabilities", rightJoined ys yb tcls),
   ("OperatingMargin", List.zipWith FVal.div (leftJoined ys yb ois) (leftJoined ys yb rs))]

/-- The table after deriving NetMargin for the `mkBalance` input shape (14 columns) -/
def kpiTabStep2 (ys rs ois nis ies yb tas tes tls invs ars tcas tcls : List FVal) : DataFrame :=
  [("Year", leftJoined ys yb ys),
   ("Revenue", leftJoined ys yb rs),
   ("OperatingIncome", leftJoined ys yb ois),
   ("NetIncome", leftJoined ys yb nis),
   ("InterestExpense", leftJoined ys yb ies),
   ("TotalAssets", rightJoined ys yb tas),
   ("TotalEquity", rightJoined ys yb tes),
   ("TotalLiabilities", rightJoined ys yb tls),
   ("Inventory", rightJoined ys yb invs),
   ("AccountsReceivable", rightJoined ys yb ars),
   ("CurrentAssets", rightJoined ys yb tcas),
   ("CurrentLiabilities", rightJoined ys yb tcls),
   ("OperatingMargin", List.zipWith FVal.div (leftJoined ys yb ois) (leftJoined ys yb rs)),
   ("NetMargin", List.zipWith FVal.div (leftJoined ys yb nis) (leftJoined ys yb rs))]

/-- The table after deriving ROA for the `mkBalance` input shape (15 columns) -/
def kpiTabStep3 (ys rs ois nis ies yb tas tes tls invs ars tcas tcls : List FVal) : DataFrame :=
  [("Year", leftJoined ys yb ys),
   ("Revenue", leftJoined ys yb rs),
   ("OperatingIncome", leftJoined ys yb ois),
   ("NetIncome", leftJoined ys yb nis),
   ("InterestExpense", leftJoined ys yb ies),
   ("TotalAssets", rightJoined ys yb tas),
   ("TotalEquity", rightJoined ys yb tes),
   ("TotalLiabilities", rightJoined ys yb tls),
   ("Inventory", rightJoined ys yb invs),
   ("AccountsReceivable", rightJoined ys yb ars),
   ("CurrentAssets", rightJoined ys yb tcas),
   ("CurrentLiabilities", rightJoined ys yb tcls),
   ("OperatingMargin", List.zipWith FVal.div (leftJoined ys yb ois) (leftJoined ys yb rs)),
   ("NetMargin", List.zipWith FVal.div (leftJoined ys yb nis) (leftJoined ys yb rs)),
   ("ROA", List.zipWith FVal.div (leftJoined ys yb nis) (rightJoined ys yb tas))]

/-- The table after deriving ROE for the `mkBalance` input shape (16 columns) -/
def kpiTabStep4 (ys rs ois nis ies yb tas tes tls invs ars tcas tcls : List FVal) : DataFrame :=
  [("Year", leftJoined ys yb ys),
   ("Revenue", leftJoined ys yb rs),
   ("OperatingIncome", leftJoined ys yb ois),
   ("NetIncome", leftJoined ys yb nis),
   ("InterestExpense", leftJoined ys yb ies),
   ("TotalAssets", rightJoined ys yb tas),
   ("TotalEquity", rightJoined ys yb tes),
   ("TotalLiabilities", rightJoined ys yb tls),
   ("Inventory", rightJoined ys yb invs),
   ("AccountsReceivable", rightJoined ys yb ars),
   ("CurrentAssets", rightJoined ys yb tcas),
   ("CurrentLiabilities", rightJoined ys yb tcls),
   ("OperatingMargin", List.zipWith FVal.div (leftJoined ys yb ois) (leftJoined ys yb rs)),
   ("NetMargin", List.zipWith FVal.div (leftJoined ys yb nis) (leftJoined ys yb rs)),
   ("ROA", List.zipWith FVal.div (leftJoined ys yb nis) (rightJoined ys yb tas)),
   ("ROE", List.zipWith FVal.div (leftJoined ys yb nis) (rightJoined ys yb tes))]

/-- The table after deriving CurrentRatio for the `mkBalance` input shape (17 columns) -/
def kpiTabStep5 (ys rs ois nis ies yb tas tes tls invs ars tcas tcls : List FVal) : DataFrame :=
  [("Year", leftJoined ys yb ys),
   ("Revenue", leftJoined ys yb rs),
   ("OperatingIncome", leftJoined ys yb ois),
   ("NetIncome", leftJoined ys yb nis),
   ("InterestExpense", leftJoined ys yb ies),
   ("TotalAssets", rightJoined ys yb tas),
   ("TotalEquity", rightJoined ys yb tes),
   ("TotalLiabilities", rightJoined ys yb tls),
   ("Inventory", rightJoined ys yb invs),
   ("AccountsReceivable", rightJoined ys yb ars),
   ("CurrentAssets", rightJoined ys yb tcas),
   ("CurrentLiabilities", rightJoined ys yb tcls),
   ("OperatingMargin", List.zipWith FVal.div (leftJoined ys yb ois) (leftJoined ys yb rs)),
   ("NetMargin", List.zipWith FVal.div (leftJoined ys yb nis) (leftJoined ys yb rs)),
   ("ROA", List.zipWith FVal.div (leftJoined ys yb nis) (rightJoined ys yb tas)),
   ("ROE", List.zipWith FVal.div (leftJoined ys yb nis) (rightJoined ys yb tes)),
   ("CurrentRatio", List.zipWith FVal.div (rightJoined ys yb tcas) (rightJoined ys yb tcls))]

/-- The table after deriving QuickRatio for the `mkBalance` input shape (18 columns) -/
def kpiTabStep6 (ys rs ois nis ies yb tas tes tls invs ars tcas tcls : List FVal) : DataFrame :=
  [("Year", leftJoined ys yb ys),
   ("Revenue", leftJoined ys yb rs),
   ("OperatingIncome", leftJoined ys yb ois),
   ("NetIncome", leftJoined ys yb nis),
   ("InterestExpense", leftJoined ys yb ies),
   ("TotalAssets", rightJoined ys yb tas),
   ("TotalEquity", rightJoined ys yb tes),
   ("TotalLiabilities", rightJoined ys yb tls),
   ("Inventory", rightJoined ys yb invs),
   ("AccountsReceivable", rightJoined ys yb ars),
   ("CurrentAssets", rightJoined ys yb tcas),
   ("CurrentLiabilities", rightJoined ys yb tcls),
   ("OperatingMargin", List.zipWith FVal.div (leftJoined ys yb ois) (leftJoined ys yb rs)),
   ("NetMargin", List.zipWith FVal.div (leftJoined ys yb nis) (leftJoined ys yb rs)),
   ("ROA", List.zipWith FVal.div (leftJoined ys yb nis) (rightJoined ys yb tas)),
   ("ROE", List.zipWith FVal.div (leftJoined ys yb nis) (rightJoined ys yb tes)),
   ("CurrentRatio", List.zipWith FVal.div (rightJoined ys yb tcas) (rightJoined ys yb tcls)),
   ("QuickRatio", List.zipWith FVal.div (List.zipWith FVal.sub (rightJoined ys yb tcas) (rightJoined ys yb invs)) (rightJoined ys yb tcls))]

/-- The table after deriving DebtToEquity for the `mkBalance` input shape (19 columns) -/
def kpiTabStep7 (ys rs ois nis ies yb tas tes tls invs ars tcas tcls : List FVal) : DataFrame :=
  [("Year", leftJoined ys yb ys),
   ("Revenue", leftJoined ys yb rs),
   ("OperatingIncome", leftJoined ys yb ois),
   ("NetIncome", leftJoined ys yb nis),
   ("InterestExpense", leftJoined ys yb ies),
   ("TotalAssets", rightJoined ys yb tas),
   ("TotalEquity", rightJoined ys yb tes),
   ("TotalLiabilities", rightJoined ys yb tls),
   ("Inventory", rightJoined ys yb invs),
   ("AccountsReceivable", rightJoined ys yb ars),
   ("CurrentAssets", rightJoined ys yb tcas),
   ("CurrentLiabilities", rightJoined ys yb tcls),
   ("OperatingMargin", List.zipWith FVal.div (leftJoined ys yb ois) (leftJoined ys yb rs)),
   ("NetMargin", List.zipWith FVal.div (leftJoined ys yb nis) (leftJoined ys yb rs)),
   ("ROA", List.zipWith FVal.div (leftJoined ys yb nis) (rightJoined ys yb tas)),
   ("ROE", List.zipWith FVal.div (leftJoined ys yb nis) (rightJoined ys yb tes)),
   ("CurrentRatio", List.zipWith FVal.div (rightJoined ys yb tcas) (rightJoined ys yb tcls)),
   ("QuickRatio", List.zipWith FVal.div (List.zipWith FVal.sub (rightJoined ys yb tcas) (rightJoined ys yb invs)) (rightJoined ys yb tcls)),
   ("DebtToEquity", List.zipWith FVal.div (rightJoined ys yb tls) (rightJoined ys yb tes))]

/-- The table after deriving InterestCoverage for the `mkBalance` input shape (20 columns) -/
def kpiTabStep8 (ys rs ois nis ies yb tas tes tls invs ars tcas tcls : List FVal) : DataFrame :=
  [("Year", leftJoined ys yb ys),
   ("Revenue", leftJoined ys yb rs),
   ("OperatingIncome", leftJoined ys yb ois),
   ("NetIncome", leftJoined ys yb nis),
   ("InterestExpense", leftJoined ys yb ies),
   ("TotalAssets", rightJoined ys yb tas),
   ("TotalEquity", rightJoined ys yb tes),
   ("TotalLiabilities", rightJoined ys yb tls),
   ("Inventory", rightJoined ys yb invs),
   ("AccountsReceivable", rightJoined ys yb ars),
   ("CurrentAssets", rightJoined ys yb tcas),
   ("CurrentLiabilities", rightJoined ys yb tcls),
   ("OperatingMargin", List.zipWith FVal.div (leftJoined ys yb ois) (leftJoined ys yb rs)),
   ("NetMargin", List.zipWith FVal.div (leftJoined ys yb nis) (leftJoined ys yb rs)),
   ("ROA", List.zipWith FVal.div (leftJoined ys yb nis) (rightJoined ys yb tas)),
   ("ROE", List.zipWith FVal.div (leftJoined ys yb nis) (rightJoined ys yb tes)),
   ("CurrentRatio", List.zipWith FVal.div (rightJoined ys yb tcas) (rightJoined ys yb tcls)),
   ("QuickRatio", List.zipWith FVal.div (List.zipWith FVal.sub (rightJoined ys yb tcas) (rightJoined ys yb invs)) (rightJoined ys yb tcls)),
   ("DebtToEquity", List.zipWith FVal.div (rightJoined ys yb tls) (rightJoined ys yb tes)),
   ("InterestCoverage", List.zipWith FVal.div (leftJoined ys yb ois) (leftJoined ys yb ies))]

/-- The table after deriving AssetTurnover for the `mkBalance` input shape (21 columns) -/
def kpiTabStep9 (ys rs ois nis ies yb tas tes tls invs ars tcas tcls : List FVal) : DataFrame :=
  [("Year", leftJoined ys yb ys),
   ("Revenue", leftJoined ys yb rs),
   ("OperatingIncome", leftJoined ys yb ois),
   ("NetIncome", leftJoined ys yb nis),
   ("InterestExpense", leftJoined ys yb ies),
   ("TotalAssets", rightJoined ys yb tas),
   ("TotalEquity", rightJoined ys yb tes),
   ("TotalLiabilities", rightJoined ys yb tls),
   ("Inventory", rightJoined ys yb invs),
   ("AccountsReceivable", rightJoined ys yb ars),
   ("CurrentAssets", rightJoined ys yb tcas),
   ("CurrentLiabilities", rightJoined ys yb tcls),
   ("OperatingMargin", List.zipWith FVal.div (leftJoined ys yb ois) (leftJoined ys yb rs)),
   ("NetMargin", List.zipWith FVal.div (leftJoined ys yb nis) (leftJoined ys yb rs)),
   ("ROA", List.zipWith FVal.div (leftJoined ys yb nis) (rightJoined ys yb tas)),
   ("ROE", List.zipWith FVal.div (leftJoined ys yb nis) (rightJoined ys yb tes)),
   ("CurrentRatio", List.zipWith FVal.div (rightJoined ys yb tcas) (rightJoined ys yb tcls)),
   ("QuickRatio", List.zipWith FVal.div (List.zipWith FVal.sub (rightJoined ys yb tcas) (rightJoined ys yb invs)) (rightJoined ys yb tcls)),
   ("DebtToEquity", List.zipWith FVal.div (rightJoined ys yb tls) (rightJoined ys yb tes)),
   ("InterestCoverage", List.zipWith FVal.div (leftJoined ys yb ois) (leftJoined ys yb ies)),
   ("AssetTurnover", List.zipWith FVal.div (leftJoined ys yb rs) (rightJoined ys yb tas))]

/-- The table after deriving ReceivablesTurnover for the `mkBalance` input shape (22 columns) -/
def kpiTabStep10 (ys rs ois nis ies yb tas tes tls invs ars tcas tcls : List FVal) : DataFrame :=
  [("Year", leftJoined ys yb ys),
   ("Revenue", leftJoined ys yb rs),
   ("OperatingIncome", leftJoined ys yb ois),
   ("NetIncome", leftJoined ys yb nis),
   ("InterestExpense", leftJoined ys yb ies),
   ("TotalAssets", rightJoined ys yb tas),
   ("TotalEquity", rightJoined ys yb tes),
   ("TotalLiabilities", rightJoined ys yb tls),
   ("Inventory", rightJoined ys yb invs),
   ("AccountsReceivable", rightJoined ys yb ars),
   ("CurrentAssets", rightJoined ys yb tcas),
   ("CurrentLiabilities", rightJoined ys yb tcls),
   ("OperatingMargin", List.zipWith FVal.div (leftJoined ys yb ois) (leftJoined ys yb rs)),
   ("NetMargin", List.zipWith FVal.div (leftJoined ys yb nis) (leftJoined ys yb rs)),
   ("ROA", List.zipWith FVal.div (leftJoined ys yb nis) (rightJoined ys yb tas)),
   ("ROE", List.zipWith FVal.div (leftJoined ys yb nis) (rightJoined ys yb tes)),
   ("CurrentRatio", List.zipWith FVal.div (rightJoined ys yb tcas) (rightJoined ys yb tcls)),
   ("QuickRatio", List.zipWith FVal.div (List.zipWith FVal.sub (rightJoined ys yb tcas) (rightJoined ys yb invs)) (rightJoined ys yb tcls)),
   ("DebtToEquity", List.zipWith FVal.div (rightJoined ys yb tls) (rightJoined ys yb tes)),
   ("InterestCoverage", List.zipWith FVal.div (leftJoined ys yb ois) (leftJoined ys yb ies)),
   ("AssetTurnover", List.zipWith FVal.div (leftJoined ys yb rs) (rightJoined ys yb tas)),
   ("ReceivablesTurnover", List.zipWith FVal.div (leftJoined ys yb rs) (rightJoined ys yb ars))]

/-- The full canonical KPI table: the 12 joined source columns followed
by the ten derived ratio columns, in derivation order (22 columns). -/
def kpiTableCanonical (ys rs ois nis ies yb tas tes tls invs ars tcas tcls : List FVal) : DataFrame :=
  kpiTabStep10 ys rs ois nis ies yb tas tes tls invs ars tcas tcls

/-- The table after the merge for the `mkBalanceNoTCA` input shape (11 columns) -/
def noTcaTabMerge (ys rs ois nis ies yb tas tes tls invs ars tcls : List FVal) : DataFrame :=
  [("Year", leftJoined ys yb ys),
   ("Revenue", leftJoined ys yb rs),
   ("OperatingIncome", leftJoined ys yb ois),
   ("NetIncome", leftJoined ys yb nis),
   ("InterestExpense", leftJoined ys yb ies),
   ("TotalAssets", rightJoined ys yb tas),
   ("TotalEquity", rightJoined ys yb tes),
   ("TotalLiabilities", rightJoined ys yb tls),
   ("Inventory", rightJoined ys yb invs),
   ("AccountsReceivable", rightJoined ys yb ars),
   ("CurrentLiabilities", rightJoined ys yb tcls)]

/-- The table after deriving OperatingMargin for the `mkBalanceNoTCA` input shape (12 columns) -/
def noTcaTabStep1 (ys rs ois nis ies yb tas tes tls invs ars tcls : List FVal) : DataFrame :=
  [("Year", leftJoined ys yb ys),
   ("Revenue", leftJoined ys yb rs),
   ("OperatingIncome", leftJoined ys yb ois),
   ("NetIncome", leftJoined ys yb nis),
   ("InterestExpense", leftJoined ys yb ies),
   ("TotalAssets", rightJoined ys yb tas),
   ("TotalEquity", rightJoined ys yb tes),
   ("TotalLiabilities", rightJoined ys yb tls),
   ("Inventory", rightJoined ys yb invs),
   ("AccountsReceivable", rightJoined ys yb ars),
   ("CurrentLiabilities", rightJoined ys yb tcls),
   ("OperatingMargin", List.zipWith FVal.div (leftJoined ys yb ois) (leftJoined ys yb rs))]

/-- The table after deriving NetMargin for the `mkBalanceNoTCA` input shape (13 columns) -/
def noTcaTabStep2 (ys rs ois nis ies yb tas tes tls invs ars tcls : List FVal) : DataFrame :=
  [("Year", leftJoined ys yb ys),
   ("Revenue", leftJoined ys yb rs),
   ("OperatingIncome", leftJoined ys yb ois),
   ("NetIncome", leftJoined ys yb nis),
   ("InterestExpense", leftJoined ys yb ies),
   ("TotalAssets", rightJoined ys yb tas),
   ("TotalEquity", rightJoined ys yb tes),
   ("TotalLiabilities", rightJoined ys yb tls),
   ("Inventory", rightJoined ys yb invs),
   ("AccountsReceivable", rightJoined ys yb ars),
   ("CurrentLiabilities", rightJoined ys yb tcls),
   ("OperatingMargin", List.zipWith FVal.div (leftJoined ys yb ois) (leftJoined ys yb rs)),
   ("NetMargin", List.zipWith FVal.div (leftJoined ys yb nis) (leftJoined ys yb rs))]

/-- The table after deriving ROA for the `mkBalanceNoTCA` input shape (14 columns) -/
def noTcaTabStep3 (ys rs ois nis ies yb tas tes tls invs ars tcls : List FVal) : DataFrame :=
  [("Year", leftJoined ys yb ys),
   ("Revenue", leftJoined ys yb rs),
   ("OperatingIncome", leftJoined ys yb ois),
   ("NetIncome", leftJoined ys yb nis),
   ("InterestExpense", leftJoined ys yb ies),
   ("TotalAssets", rightJoined ys yb tas),
   ("TotalEquity", rightJoined ys yb tes),
   ("TotalLiabilities", rightJoined ys yb tls),
   ("Inventory", rightJoined ys yb invs),
   ("AccountsReceivable", rightJoined ys yb ars),
   ("CurrentLiabilities", rightJoined ys yb tcls),
   ("OperatingMargin", List.zipWith FVal.div (leftJoined ys yb ois) (leftJoined ys yb rs)),
   ("NetMargin", List.zipWith FVal.div (leftJoined ys yb nis) (leftJoined ys yb rs)),
   ("ROA", List.zipWith FVal.div (leftJoined ys yb nis) (rightJoined ys yb tas))]

/-- The table after deriving ROE for the `mkBalanceNoTCA` input shape (15 columns) -/
def noTcaTabStep4 (ys rs ois nis ies yb tas tes tls invs ars tcls : List FVal) : DataFrame :=
  [("Year", leftJoined ys yb ys),
   ("Revenue", leftJoined ys yb rs),
   ("OperatingIncome", leftJoined ys yb ois),
   ("NetIncome", leftJoined ys yb nis),
   ("InterestExpense", leftJoined ys yb ies),
   ("TotalAssets", rightJoined ys yb tas),
   ("TotalEquity", rightJoined ys yb tes),
   ("TotalLiabilities", rightJoined ys yb tls),
   ("Inventory", rightJoined ys yb invs),
   ("AccountsReceivable", rightJoined ys yb ars),
   ("CurrentLiabilities", rightJoined ys yb tcls),
   ("OperatingMargin", List.zipWith FVal.div (leftJoined ys yb ois) (leftJoined ys yb rs)),
   ("NetMargin", List.zipWith FVal.div (leftJoined ys yb nis) (leftJoined ys yb rs)),
   ("ROA", List.zipWith FVal.div (leftJoined ys yb nis) (rightJoined ys yb tas)),
   ("ROE", List.zipWith FVal.div (leftJoined ys yb nis) (rightJoined ys yb tes))]

/-- The table after the merge for the `mkBalanceNoTCL` input shape (11 columns) -/
def noTclTabMerge (ys rs ois nis ies yb tas tes tls invs ars tcas : List FVal) : DataFrame :=
  [("Year", leftJoined ys yb ys),
   ("Revenue", leftJoined ys yb rs),
   ("OperatingIncome", leftJoined ys yb ois),
   ("NetIncome", leftJoined ys yb nis),
   ("InterestExpense", leftJoined ys yb ies),
   ("TotalAssets", rightJoined ys yb tas),
   ("TotalEquity", rightJoined ys yb tes),
   ("TotalLiabilities", rightJoined ys yb tls),
   ("Inventory", rightJoined ys yb invs),
   ("AccountsReceivable", rightJoined ys yb ars),
   ("CurrentAssets", rightJoined ys yb tcas)]

/-- The table after deriving OperatingMargin for the `mkBalanceNoTCL` input shape (12 columns) -/
def noTclTabStep1 (ys rs ois nis ies yb tas tes tls invs ars tcas : List FVal) : DataFrame :=
  [("Year", leftJoined ys yb ys),
   ("Revenue", leftJoined ys yb rs),
   ("OperatingIncome", leftJoined ys yb ois),
   ("NetIncome", leftJoined ys yb nis),
   ("InterestExpense", leftJoined ys yb ies),
   ("TotalAssets", rightJoined ys yb tas),
   ("TotalEquity", rightJoined ys yb tes),
   ("TotalLiabilities", rightJoined ys yb tls),
   ("Inventory", rightJoined ys yb invs),
   ("AccountsReceivable", rightJoined ys yb ars),
   ("CurrentAssets", rightJoined ys yb tcas),
   ("OperatingMargin", List.zipWith FVal.div (leftJoined ys yb ois) (leftJoined ys yb rs))]

/-- The table after deriving NetMargin for the `mkBalanceNoTCL` input shape (13 columns) -/
def noTclTabStep2 (ys rs ois nis ies yb tas tes tls invs ars tcas : List FVal) : DataFrame :=
  [("Year", leftJoined ys yb ys),
   ("Revenue", leftJoined ys yb rs),
   ("OperatingIncome", leftJoined ys yb ois),
   ("NetIncome", leftJoined ys yb nis),
   ("InterestExpense", leftJoined ys yb ies),
   ("TotalAssets", rightJoined ys yb tas),
   ("TotalEquity", rightJoined ys yb tes),
   ("TotalLiabilities", rightJoined ys yb tls),
   ("Inventory", rightJoined ys yb invs),
   ("AccountsReceivable", rightJoined ys yb ars),
   ("CurrentAssets", rightJoined ys yb tcas),
   ("OperatingMargin", List.zipWith FVal.div (leftJoined ys yb ois) (leftJoined ys yb rs)),
   ("NetMargin", List.zipWith FVal.div (leftJoined ys yb nis) (leftJoined ys yb rs))]

/-- The table after deriving ROA for the `mkBalanceNoTCL` input shape (14 columns) -/
def noTclTabStep3 (ys rs ois nis ies yb tas tes tls invs ars tcas : List FVal) : DataFrame :=
  [("Year", leftJoined ys yb ys),
   ("Revenue", leftJoined ys yb rs),
   ("OperatingIncome", leftJoined ys yb ois),
   ("NetIncome", leftJoined ys yb nis),
   ("InterestExpense", leftJoined ys yb ies),
   ("TotalAssets", rightJoined ys yb tas),
   ("TotalEquity", rightJoined ys yb tes),
   ("TotalLiabilities", rightJoined ys yb tls),
   ("Inventory", rightJoined ys yb invs),
   ("AccountsReceivable", rightJoined ys yb ars),
   ("CurrentAssets", rightJoined ys yb tcas),
   ("OperatingMargin", List.zipWith FVal.div (leftJoined ys yb ois) (leftJoined ys yb rs)),
   ("NetMargin", List.zipWith FVal.div (leftJoined ys yb nis) (leftJoined ys yb rs)),
   ("ROA", List.zipWith FVal.div (leftJoined ys yb nis) (rightJoined ys yb tas))]

/-- The table after deriving ROE for the `mkBalanceNoTCL` input shape (15 columns) -/
def noTclTabStep4 (ys rs ois nis ies yb tas tes tls invs ars tcas : List FVal) : DataFrame :=
  [("Year", leftJoined ys yb ys),
   ("Revenue", leftJoined ys yb rs),
   ("OperatingIncome", leftJoined ys yb ois),
   ("NetIncome", leftJoined ys yb nis),
   ("InterestExpense", leftJoined ys yb ies),
   ("TotalAssets", rightJoined ys yb tas),
   ("TotalEquity", rightJoined ys yb tes),
   ("TotalLiabilities", rightJoined ys yb tls),
   ("Inventory", rightJoined ys yb invs),
   ("AccountsReceivable", rightJoined ys yb ars),
   ("CurrentAssets", rightJoined ys yb tcas),
   ("OperatingMargin", List.zipWith FVal.div (leftJoined ys yb ois) (leftJoined ys yb rs)),
   ("NetMargin", List.zipWith FVal.div (leftJoined ys yb nis) (leftJoined ys yb rs)),
   ("ROA", List.zipWith FVal.div (leftJoined ys yb nis) (rightJoined ys yb tas)),
   ("ROE", List.zipWith FVal.div (leftJoined ys yb nis) (rightJoined ys yb tes))]

/-! ## General lemmas about the embedding -/

@[simp] theorem getCol_nil (c : String) : getCol [] c = Except.error c := rfl

@[simp] theorem getCol_cons (n : String) (vs : List FVal) (df : DataFrame) (c : String) :
    getCol ((n, vs) :: df) c = if (n == c) then Except.ok vs else getCol df c := by
  cases h : (n == c) <;> simp [getCol, List.find?, h]

@[simp] theorem hasCol_nil (c : String) : hasCol [] c = false := rfl

@[simp] theorem hasCol_cons (n : String) (vs : List FVal) (df : DataFrame) (c : String) :
    hasCol ((n, vs) :: df) c = ((n == c) || hasCol df c) := by
  simp [hasCol]

@[simp] theorem ok_bind {A B : Type} (a : A) (f : A → Except String B) :
    (Except.ok a >>= f) = f a := rfl

@[simp] theorem error_bind {A B : Type} (e : String) (f : A → Except String B) :
    ((Except.error e : Except String A) >>= f) = Except.error e := rfl

theorem filterMapRangeNodup {A B : Type} [DecidableEq A] (d : A) (ys : List A)
    (h : ys.Nodup) (y : A) (b : B) :
    (List.range ys.length).filterMap
      (fun j => if y = ys.getD j d then some b else none) =
    if y ∈ ys then [b] else [] := by
  induction ys with
  | nil => simp
  | cons v tl ih =>
    obtain ⟨hv, htl⟩ := List.nodup_cons.mp h
    rw [List.length_cons, List.range_succ_eq_map, List.filterMap_cons,
      List.filterMap_map]
    simp only [Function.comp_def, List.getD_cons_succ, List.getD_cons_zero,
      Nat.succ_eq_add_one]
    rw [ih htl]
    by_cases hy : y = v
    · subst hy
      simp [hv]
    · simp [hy]

theorem flatMapRangeFilter {A : Type} [DecidableEq A] (d : A) (yR yL : List A) :
    (List.range yL.length).flatMap
      (fun i => if yL.getD i d ∈ yR then [yL.getD i d] else []) =
    yL.filter (fun y => decide (y ∈ yR)) := by
  induction yL with
  | nil => simp
  | cons v tl ih =>
    rw [List.length_cons, List.range_succ_eq_map, List.flatMap_cons,
      List.flatMap_map]
    simp only [Function.comp_def, List.getD_cons_succ, List.getD_cons_zero,
      Nat.succ_eq_add_one]
    rw [ih]
    by_cases hv : v ∈ yR <;> simp [hv, List.filter_cons]

/-- The `Year` column an inner merge produces: when the right key column
has no duplicates, it is exactly the left key column filtered by
membership in the right one — left row order, one output row per left
row whose year also occurs on the right. -/
theorem joinIdx_years (yL yR : List FVal) (hR : yR.Nodup) :
    leftJoined yL yR yL = yL.filter (fun y => decide (y ∈ yR)) := by
  unfold leftJoined joinIdx
  rw [List.map_flatMap]
  simp only [List.map_filterMap, Option.map_some', Option.map_none', apply_ite]
  simp only [filterMapRangeNodup FVal.nan yR hR]
  exact flatMapRangeFilter FVal.nan yR yL

theorem zipWith_getElemD {A : Type} (f : A → A → A) (d : A) (a b : List A)
    (k : Nat) (h1 : k < a.length) (h2 : k < b.length) :
    (List.zipWith f a b)[k]?.getD d = f (a[k]?.getD d) (b[k]?.getD d) := by
  have hz : k < (List.zipWith f a b).length := by
    rw [List.length_zipWith]
    exact lt_min h1 h2
  rw [List.getElem?_eq_getElem hz, List.getElem?_eq_getElem h1,
    List.getElem?_eq_getElem h2]
  simp [List.getElem_zipWith]

/-- Dividing by a zero denominator never raises: the result is one of
`+∞`, `-∞` or `NaN`. -/
theorem div_zero_cases (x : FVal) :
    FVal.div x (FVal.num 0) = FVal.inf true ∨
    FVal.div x (FVal.num 0) = FVal.inf false ∨
    FVal.div x (FVal.num 0) = FVal.nan := by
  cases x with
  | nan => right; right; rfl
  | num a =>
    by_cases ha : a = 0
    · right; right; simp [FVal.div, ha]
    · cases hd : decide (0 < a) with
      | true => left; simp [FVal.div, ha, hd]
      | false => right; left; simp [FVal.div, ha, hd]
  | inf s =>
    cases s with
    | true => left; simp [FVal.div]
    | false => right; left; simp [FVal.div]

theorem length_leftJoined (yL yR vals : List FVal) :
    (leftJoined yL yR vals).length = (joinIdx yL yR).length := by
  simp [leftJoined]

theorem length_rightJoined (yL yR vals : List FVal) :
    (rightJoined yL yR vals).length = (joinIdx yL yR).length := by
  simp [rightJoined]

/-! ## Step lemmas: the pipeline on the canonical schemas -/

theorem kpiTabMerge_eq (ys rs ois nis ies yb tas tes tls invs ars tcas tcls : List FVal) :
    mergeOnYear (mkIncome ys rs ois nis ies)
      (renameBalance (mkBalance yb tas tes tls invs ars tcas tcls)) =
    Except.ok (kpiTabMerge ys rs ois nis ies yb tas tes tls invs ars tcas tcls) := by
  simp [mergeOnYear, renameBalance, renameName, mkIncome, mkBalance,
    kpiTabMerge, List.filter]

theorem kpiTabStep1_eq (ys rs ois nis ies yb tas tes tls invs ars tcas tcls : List FVal) :
    deriveCol (kpiTabMerge ys rs ois nis ies yb tas tes tls invs ars tcas tcls) "OperatingMargin" "OperatingIncome" "Revenue" FVal.div =
    Except.ok (kpiTabStep1 ys rs ois nis ies yb tas tes tls invs ars tcas tcls) := by
  simp [deriveCol, setCol, kpiTabMerge, kpiTabStep1]

theorem kpiTabStep2_eq (ys rs ois nis ies yb tas tes tls invs ars tcas tcls : List FVal) :
    deriveCol (kpiTabStep1 ys rs ois nis ies yb tas tes tls invs ars tcas tcls) "NetMargin" "NetIncome" "Revenue" FVal.div =
    Except.ok (kpiTabStep2 ys rs ois nis ies yb tas tes tls invs ars tcas tcls) := by
  simp [deriveCol, setCol, kpiTabStep1, kpiTabStep2]

theorem kpiTabStep3_eq (ys rs ois nis ies yb tas tes tls invs ars tcas tcls : List FVal) :
    deriveCol (kpiTabStep2 ys rs ois nis ies yb tas tes tls invs ars tcas tcls) "ROA" "NetIncome" "TotalAssets" FVal.div =
    Except.ok (kpiTabStep3 ys rs ois nis ies yb tas tes tls invs ars tcas tcls) := by
  simp [deriveCol, setCol, kpiTabStep2, kpiTabStep3]

theorem kpiTabStep4_eq (ys rs ois nis ies yb tas tes tls invs ars tcas tcls : List FVal) :
    deriveCol (kpiTabStep3 ys rs ois nis ies yb tas tes tls invs ars tcas tcls) "ROE" "NetIncome" "TotalEquity" FVal.div =
    Except.ok (kpiTabStep4 ys rs ois nis ies yb tas tes tls invs ars tcas tcls) := by
  simp [deriveCol, setCol, kpiTabStep3, kpiTabStep4]

theorem kpiTabStep5_eq (ys rs ois nis ies yb tas tes tls invs ars tcas tcls : List FVal) :
    deriveCol (kpiTabStep4 ys rs ois nis ies yb tas tes tls invs ars tcas tcls) "CurrentRatio" "CurrentAssets" "CurrentLiabilities" FVal.div =
    Except.ok (kpiTabStep5 ys rs ois nis ies yb tas tes tls invs ars tcas tcls) := by
  simp [deriveCol, setCol, kpiTabStep4, kpiTabStep5]

theorem kpiTabStep6_eq (ys rs ois nis ies yb tas tes tls invs ars tcas tcls : List FVal) :
    deriveQuick (kpiTabStep5 ys rs ois nis ies yb tas tes tls invs ars tcas tcls) =
    Except.ok (kpiTabStep6 ys rs ois nis ies yb tas tes tls invs ars tcas tcls) := by
  simp [deriveQuick, setCol, kpiTabStep5, kpiTabStep6]

theorem kpiTabStep7_eq (ys rs ois nis ies yb tas tes tls invs ars tcas tcls : List FVal) :
    deriveCol (kpiTabStep6 ys rs ois nis ies yb tas tes tls invs ars tcas tcls) "DebtToEquity" "TotalLiabilities" "TotalEquity" FVal.div =
    Except.ok (kpiTabStep7 ys rs ois nis ies yb tas tes tls invs ars tcas tcls) := by
  simp [deriveCol, setCol, kpiTabStep6, kpiTabStep7]

theorem kpiTabStep8_eq (ys rs ois nis ies yb tas tes tls invs ars tcas tcls : List FVal) :
    deriveCol (kpiTabStep7 ys rs ois nis ies yb tas tes tls invs ars tcas tcls) "InterestCoverage" "OperatingIncome" "InterestExpense" FVal.div =
    Except.ok (kpiTabStep8 ys rs ois nis ies yb tas tes tls invs ars tcas tcls) := by
  simp [deriveCol, setCol, kpiTabStep7, kpiTabStep8]

theorem kpiTabStep9_eq (ys rs ois nis ies yb tas tes tls invs ars tcas tcls : List FVal) :
    deriveCol (kpiTabStep8 ys rs ois nis ies yb tas tes tls invs ars tcas tcls) "AssetTurnover" "Revenue" "TotalAssets" FVal.div =
    Except.ok (kpiTabStep9 ys rs ois nis ies yb tas tes tls invs ars tcas tcls) := by
  simp [deriveCol, setCol, kpiTabStep8, kpiTabStep9]

theorem kpiTabStep10_eq (ys rs ois nis ies yb tas tes tls invs ars tcas tcls : List FVal) :
    deriveCol (kpiTabStep9 ys rs ois nis ies yb tas tes tls invs ars tcas tcls) "ReceivablesTurnover" "Revenue" "AccountsReceivable" FVal.div =
    Except.ok (kpiTabStep10 ys rs ois nis ies yb tas tes tls invs ars tcas tcls) := by
  simp [deriveCol, setCol, kpiTabStep9, kpiTabStep10]

theorem build_kpi_table_canonical (ys rs ois nis ies yb tas tes tls invs ars tcas tcls : List FVal) :
    build_kpi_table (mkIncome ys rs ois nis ies)
      (mkBalance yb tas tes tls invs ars tcas tcls) =
    Except.ok (kpiTableCanonical ys rs ois nis ies yb tas tes tls invs ars tcas tcls) := by
  simp only [build_kpi_table, kpiTabMerge_eq, kpiTabStep1_eq, kpiTabStep2_eq, kpiTabStep3_eq, kpiTabStep4_eq, kpiTabStep5_eq, kpiTabStep6_eq, kpiTabStep7_eq, kpiTabStep8_eq, kpiTabStep9_eq, kpiTabStep10_eq,
    kpiTableCanonical, ok_bind]

theorem noTcaTabMerge_eq (ys rs ois nis ies yb tas tes tls invs ars tcls : List FVal) :
    mergeOnYear (mkIncome ys rs ois nis ies)
      (renameBalance (mkBalanceNoTCA yb tas tes tls invs ars tcls)) =
    Except.ok (noTcaTabMerge ys rs ois nis ies yb tas tes tls invs ars tcls) := by
  simp [mergeOnYear, renameBalance, renameName, mkIncome, mkBalanceNoTCA,
    noTcaTabMerge, List.filter]

theorem noTcaTabStep1_eq (ys rs ois nis ies yb tas tes tls invs ars tcls : List FVal) :
    deriveCol (noTcaTabMerge ys rs ois nis ies yb tas tes tls invs ars tcls) "OperatingMargin" "OperatingIncome" "Revenue" FVal.div =
    Except.ok (noTcaTabStep1 ys rs ois nis ies yb tas tes tls invs ars tcls) := by
  simp [deriveCol, setCol, noTcaTabMerge, noTcaTabStep1]

theorem noTcaTabStep2_eq (ys rs ois nis ies yb tas tes tls invs ars tcls : List FVal) :
    deriveCol (noTcaTabStep1 ys rs ois nis ies yb tas tes tls invs ars tcls) "NetMargin" "NetIncome" "Revenue" FVal.div =
    Except.ok (noTcaTabStep2 ys rs ois nis ies yb tas tes tls invs ars tcls) := by
  simp [deriveCol, setCol, noTcaTabStep1, noTcaTabStep2]

theorem noTcaTabStep3_eq (ys rs ois nis ies yb tas tes tls invs ars tcls : List FVal) :
    deriveCol (noTcaTabStep2 ys rs ois nis ies yb tas tes tls invs ars tcls) "ROA" "NetIncome" "TotalAssets" FVal.div =
    Except.ok (noTcaTabStep3 ys rs ois nis ies yb tas tes tls invs ars tcls) := by
  simp [deriveCol, setCol, noTcaTabStep2, noTcaTabStep3]

theorem noTcaTabStep4_eq (ys rs ois nis ies yb tas tes tls invs ars tcls : List FVal) :
    deriveCol (noTcaTabStep3 ys rs ois nis ies yb tas tes tls invs ars tcls) "ROE" "NetIncome" "TotalEquity" FVal.div =
    Except.ok (noTcaTabStep4 ys rs ois nis ies yb tas tes tls invs ars tcls) := by
  simp [deriveCol, setCol, noTcaTabStep3, noTcaTabStep4]

theorem noTcaCurrentStep_eq (ys rs ois nis ies yb tas tes tls invs ars tcls : List FVal) :
    deriveCol (noTcaTabStep4 ys rs ois nis ies yb tas tes tls invs ars tcls) "CurrentRatio" "CurrentAssets"
      "CurrentLiabilities" FVal.div = Except.error "CurrentAssets" := by
  simp [deriveCol, noTcaTabStep4]

theorem build_noTCA_error (ys rs ois nis ies yb tas tes tls invs ars tcls : List FVal) :
    build_kpi_table (mkIncome ys rs ois nis ies)
      (mkBalanceNoTCA yb tas tes tls invs ars tcls) =
    Except.error "CurrentAssets" := by
  simp only [build_kpi_table, noTcaTabMerge_eq, noTcaTabStep1_eq, noTcaTabStep2_eq, noTcaTabStep3_eq, noTcaTabStep4_eq,
    noTcaCurrentStep_eq, ok_bind, error_bind]

theorem noTclTabMerge_eq (ys rs ois nis ies yb tas tes tls invs ars tcas : List FVal) :
    mergeOnYear (mkIncome ys rs ois nis ies)
      (renameBalance (mkBalanceNoTCL yb tas tes tls invs ars tcas)) =
    Except.ok (noTclTabMerge ys rs ois nis ies yb tas tes tls invs ars tcas) := by
  simp [mergeOnYear, renameBalance, renameName, mkIncome, mkBalanceNoTCL,
    noTclTabMerge, List.filter]

theorem noTclTabStep1_eq (ys rs ois nis ies yb tas tes tls invs ars tcas : List FVal) :
    deriveCol (noTclTabMerge ys rs ois nis ies yb tas tes tls invs ars tcas) "OperatingMargin" "OperatingIncome" "Revenue" FVal.div =
    Except.ok (noTclTabStep1 ys rs ois nis ies yb tas tes tls invs ars tcas) := by
  simp [deriveCol, setCol, noTclTabMerge, noTclTabStep1]

theorem noTclTabStep2_eq (ys rs ois nis ies yb tas tes tls invs ars tcas : List FVal) :
    deriveCol (noTclTabStep1 ys rs ois nis ies yb tas tes tls invs ars tcas) "NetMargin" "NetIncome" "Revenue" FVal.div =
    Except.ok (noTclTabStep2 ys rs ois nis ies yb tas tes tls invs ars tcas) := by
  simp [deriveCol, setCol, noTclTabStep1, noTclTabStep2]

theorem noTclTabStep3_eq (ys rs ois nis ies yb tas tes tls invs ars tcas : List FVal) :
    deriveCol (noTclTabStep2 ys rs ois nis ies yb tas tes tls invs ars tcas) "ROA" "NetIncome" "TotalAssets" FVal.div =
    Except.ok (noTclTabStep3 ys rs ois nis ies yb tas tes tls invs ars tcas) := by
  simp [deriveCol, setCol, noTclTabStep2, noTclTabStep3]

theorem noTclTabStep4_eq (ys rs ois nis ies yb tas tes tls invs ars tcas : List FVal) :
    deriveCol (noTclTabStep3 ys rs ois nis ies yb tas tes tls invs ars tcas) "ROE" "NetIncome" "TotalEquity" FVal.div =
    Except.ok (noTclTabStep4 ys rs ois nis ies yb tas tes tls invs ars tcas) := by
  simp [deriveCol, setCol, noTclTabStep3, noTclTabStep4]

theorem noTclCurrentStep_eq (ys rs ois nis ies yb tas tes tls invs ars tcas : List FVal) :
    deriveCol (noTclTabStep4 ys rs ois nis ies yb tas tes tls invs ars tcas) "CurrentRatio" "CurrentAssets"
      "CurrentLiabilities" FVal.div = Except.error "CurrentLiabilities" := by
  simp [deriveCol, noTclTabStep4]

theorem build_noTCL_error (ys rs ois nis ies yb tas tes tls invs ars tcas : List FVal) :
    build_kpi_table (mkIncome ys rs ois nis ies)
      (mkBalanceNoTCL yb tas tes tls invs ars tcas) =
    Except.error "CurrentLiabilities" := by
  simp only [build_kpi_table, noTclTabMerge_eq, noTclTabStep1_eq, noTclTabStep2_eq, noTclTabStep3_eq, noTclTabStep4_eq,
    noTclCurrentStep_eq, ok_bind, error_bind]

/-! ## The claims -/

/-- Claim C1: for every joined row of the KPI table produced by the build,
each of the ten derived columns equals exactly its stated formula over the
row's source fields (OperatingMargin = OperatingIncome / Revenue, NetMargin
= NetIncome / Revenue, ROA = NetIncome / TotalAssets, ROE = NetIncome /
TotalEquity, CurrentRatio = CurrentAssets / CurrentLiabilities, QuickRatio
= (CurrentAssets - Inventory) / CurrentLiabilities, DebtToEquity =
TotalLiabilities / TotalEquity, InterestCoverage = OperatingIncome /
InterestExpense, AssetTurnover = Revenue / TotalAssets,
ReceivablesTurnover = Revenue / AccountsReceivable), and the ten columns
are appended to the table in exactly this order. -/
theorem buildKpiTable_ten_ratio_columns (ys rs ois nis ies yb tas tes tls invs ars tcas tcls : List FVal) :
    ∃ df, build_kpi_table (mkIncome ys rs ois nis ies)
        (mkBalance yb tas tes tls invs ars tcas tcls) = Except.ok df ∧
      df.map Prod.fst =
        ["Year", "Revenue", "OperatingIncome", "NetIncome",
         "InterestExpense", "TotalAssets", "TotalEquity",
         "TotalLiabilities", "Inventory", "AccountsReceivable",
         "CurrentAssets", "CurrentLiabilities", "OperatingMargin",
         "NetMargin", "ROA", "ROE", "CurrentRatio", "QuickRatio",
         "DebtToEquity", "InterestCoverage", "AssetTurnover",
         "ReceivablesTurnover"] ∧
      ∀ k, k < nRows df →
        cell df "OperatingMargin" k = FVal.div (cell df "OperatingIncome" k) (cell df "Revenue" k) ∧
        cell df "NetMargin" k = FVal.div (cell df "NetIncome" k) (cell df "Revenue" k) ∧
        cell df "ROA" k = FVal.div (cell df "NetIncome" k) (cell df "TotalAssets" k) ∧
        cell df "ROE" k = FVal.div (cell df "NetIncome" k) (cell df "TotalEquity" k) ∧
        cell df "CurrentRatio" k = FVal.div (cell df "CurrentAssets" k) (cell df "CurrentLiabilities" k) ∧
        cell df "QuickRatio" k =
          FVal.div (FVal.sub (cell df "CurrentAssets" k) (cell df "Inventory" k))
            (cell df "CurrentLiabilities" k) ∧
        cell df "DebtToEquity" k = FVal.div (cell df "TotalLiabilities" k) (cell df "TotalEquity" k) ∧
        cell df "InterestCoverage" k = FVal.div (cell df "OperatingIncome" k) (cell df "InterestExpense" k) ∧
        cell df "AssetTurnover" k = FVal.div (cell df "Revenue" k) (cell df "TotalAssets" k) ∧
        cell df "ReceivablesTurnover" k = FVal.div (cell df "Revenue" k) (cell df "AccountsReceivable" k) := by
  refine ⟨kpiTableCanonical ys rs ois nis ies yb tas tes tls invs ars tcas tcls,
    build_kpi_table_canonical ys rs ois nis ies yb tas tes tls invs ars tcas tcls, ?_, ?_⟩
  · simp [kpiTableCanonical, kpiTabStep10]
  · intro k hk
    have hk' : k < (joinIdx ys yb).length := by
      simpa [nRows, kpiTableCanonical, kpiTabStep10, leftJoined] using hk
    have hL : ∀ v : List FVal, k < (leftJoined ys yb v).length := by
      intro v; rw [length_leftJoined]; exact hk'
    have hR : ∀ v : List FVal, k < (rightJoined ys yb v).length := by
      intro v; rw [length_rightJoined]; exact hk'
    refine ⟨?_, ?_, ?_, ?_, ?_, ?_, ?_, ?_, ?_, ?_⟩
    · simp [cell, kpiTableCanonical, kpiTabStep10]
      exact zipWith_getElemD FVal.div FVal.nan _ _ k (hL ois) (hL rs)
    · simp [cell, kpiTableCanonical, kpiTabStep10]
      exact zipWith_getElemD FVal.div FVal.nan _ _ k (hL nis) (hL rs)
    · simp [cell, kpiTableCanonical, kpiTabStep10]
      exact zipWith_getElemD FVal.div FVal.nan _ _ k (hL nis) (hR tas)
    · simp [cell, kpiTableCanonical, kpiTabStep10]
      exact zipWith_getElemD FVal.div FVal.nan _ _ k (hL nis) (hR tes)
    · simp [cell, kpiTableCanonical, kpiTabStep10]
      exact zipWith_getElemD FVal.div FVal.nan _ _ k (hR tcas) (hR tcls)
    · simp [cell, kpiTableCanonical, kpiTabStep10]
      have hsub : k < (List.zipWith FVal.sub (rightJoined ys yb tcas)
          (rightJoined ys yb invs)).length := by
        rw [List.length_zipWith]
        exact lt_min (hR tcas) (hR invs)
      rw [zipWith_getElemD FVal.div FVal.nan _ _ k hsub (hR tcls),
        zipWith_getElemD FVal.sub FVal.nan _ _ k (hR tcas) (hR invs)]
    · simp [cell, kpiTableCanonical, kpiTabStep10]
      exact zipWith_getElemD FVal.div FVal.nan _ _ k (hR tls) (hR tes)
    · simp [cell, kpiTableCanonical, kpiTabStep10]
      exact zipWith_getElemD FVal.div FVal.nan _ _ k (hL ois) (hL ies)
    · simp [cell, kpiTableCanonical, kpiTabStep10]
      exact zipWith_getElemD FVal.div FVal.nan _ _ k (hL rs) (hR tas)
    · simp [cell, kpiTableCanonical, kpiTabStep10]
      exact zipWith_getElemD FVal.div FVal.nan _ _ k (hL rs) (hR ars)

/-- Claim C2: the table returned by the build contains exactly one row
per year present in both inputs — a year present in only one input
never appears — and its rows are in the income table's source row order
filtered by presence in the balance table, never reordered or
deduplicated beyond the join.  (`Year` is a unique key of each input,
per the data model, hence the `Nodup` hypotheses.) -/
theorem buildKpiTable_inner_join_rows
    (ys rs ois nis ies yb tas tes tls invs ars tcas tcls : List FVal)
    (hL : ys.Nodup) (hR : yb.Nodup) :
    ∃ df, build_kpi_table (mkIncome ys rs ois nis ies)
        (mkBalance yb tas tes tls invs ars tcas tcls) = Except.ok df ∧
      getCol df "Year" = Except.ok (ys.filter (fun y => decide (y ∈ yb))) ∧
      nRows df = (ys.filter (fun y => decide (y ∈ yb))).length ∧
      (ys.filter (fun y => decide (y ∈ yb))).Nodup ∧
      (∀ y : FVal, (y ∈ ys.filter (fun y => decide (y ∈ yb))) ↔ (y ∈ ys ∧ y ∈ yb)) := by
  refine ⟨kpiTableCanonical ys rs ois nis ies yb tas tes tls invs ars tcas tcls,
    build_kpi_table_canonical ys rs ois nis ies yb tas tes tls invs ars tcas tcls,
    ?_, ?_, hL.filter _, ?_⟩
  · simp only [kpiTableCanonical, kpiTabStep10, getCol_cons]
    rw [joinIdx_years ys yb hR]
    simp
  · simp only [nRows, kpiTableCanonical, kpiTabStep10]
    rw [joinIdx_years ys yb hR]
  · intro y
    simp [List.mem_filter]

/-- Witness for C2 at a concrete input: income years 2021–2023, balance
years 2021–2022; the joined table has exactly the rows 2021, 2022 in
income order. -/
theorem buildKpiTable_inner_join_rows_witness :
    ∃ df, build_kpi_table
        (mkIncome [FVal.num 2021, FVal.num 2022, FVal.num 2023]
          [FVal.num 100, FVal.num 110, FVal.num 120]
          [FVal.num 20, FVal.num 21, FVal.num 22]
          [FVal.num 10, FVal.num 11, FVal.num 12]
          [FVal.num 5, FVal.num 5, FVal.num 5])
        (mkBalance [FVal.num 2021, FVal.num 2022]
          [FVal.num 200, FVal.num 210] [FVal.num 80, FVal.num 81]
          [FVal.num 120, FVal.num 129] [FVal.num 30, FVal.num 31]
          [FVal.num 40, FVal.num 41] [FVal.num 90, FVal.num 91]
          [FVal.num 60, FVal.num 61]) = Except.ok df ∧
      getCol df "Year" = Except.ok
        ([FVal.num 2021, FVal.num 2022, FVal.num 2023].filter
          (fun y => decide (y ∈ [FVal.num 2021, FVal.num 2022]))) ∧
      nRows df = ([FVal.num 2021, FVal.num 2022, FVal.num 2023].filter
          (fun y => decide (y ∈ [FVal.num 2021, FVal.num 2022]))).length ∧
      ([FVal.num 2021, FVal.num 2022, FVal.num 2023].filter
          (fun y => decide (y ∈ [FVal.num 2021, FVal.num 2022]))).Nodup ∧
      (∀ y : FVal, (y ∈ [FVal.num 2021, FVal.num 2022, FVal.num 2023].filter
          (fun y => decide (y ∈ [FVal.num 2021, FVal.num 2022]))) ↔
        (y ∈ [FVal.num 2021, FVal.num 2022, FVal.num 2023] ∧
          y ∈ [FVal.num 2021, FVal.num 2022])) :=
  buildKpiTable_inner_join_rows
    [FVal.num 2021, FVal.num 2022, FVal.num 2023]
    [FVal.num 100, FVal.num 110, FVal.num 120]
    [FVal.num 20, FVal.num 21, FVal.num 22]
    [FVal.num 10, FVal.num 11, FVal.num 12]
    [FVal.num 5, FVal.num 5, FVal.num 5]
    [FVal.num 2021, FVal.num 2022]
    [FVal.num 200, FVal.num 210] [FVal.num 80, FVal.num 81]
    [FVal.num 120, FVal.num 129] [FVal.num 30, FVal.num 31]
    [FVal.num 40, FVal.num 41] [FVal.num 90, FVal.num 91]
    [FVal.num 60, FVal.num 61] (by decide) (by decide)

/-- Claim C3: when the joined `Revenue` value of some row is `0`, the
build does not raise: it still succeeds, the row is still among the
rows of the returned (and persisted) table, and the affected derived
fields (`OperatingMargin`, `NetMargin`) equal a division by zero, which
is an infinite or undefined value under floating-point semantics. -/
theorem buildKpiTable_revenue_zero_no_raise
    (ys rs ois nis ies yb tas tes tls invs ars tcas tcls : List FVal)
    (k : Nat) (hk : k < (joinIdx ys yb).length)
    (hrev : (leftJoined ys yb rs).getD k FVal.nan = FVal.num 0) :
    ∃ df, build_kpi_table (mkIncome ys rs ois nis ies)
        (mkBalance yb tas tes tls invs ars tcas tcls) = Except.ok df ∧
      nRows df = (joinIdx ys yb).length ∧
      cell df "Revenue" k = FVal.num 0 ∧
      cell df "OperatingMargin" k =
        FVal.div (cell df "OperatingIncome" k) (FVal.num 0) ∧
      (cell df "OperatingMargin" k = FVal.inf true ∨
        cell df "OperatingMargin" k = FVal.inf false ∨
        cell df "OperatingMargin" k = FVal.nan) ∧
      cell df "NetMargin" k = FVal.div (cell df "NetIncome" k) (FVal.num 0) ∧
      (cell df "NetMargin" k = FVal.inf true ∨
        cell df "NetMargin" k = FVal.inf false ∨
        cell df "NetMargin" k = FVal.nan) := by
  have hrev' : (leftJoined ys yb rs)[k]?.getD FVal.nan = FVal.num 0 := by
    rw [← List.getD_eq_getElem?_getD]
    exact hrev
  have hL : ∀ v : List FVal, k < (leftJoined ys yb v).length := by
    intro v; rw [length_leftJoined]; exact hk
  refine ⟨kpiTableCanonical ys rs ois nis ies yb tas tes tls invs ars tcas tcls,
    build_kpi_table_canonical ys rs ois nis ies yb tas tes tls invs ars tcas tcls,
    ?_, ?_, ?_, ?_, ?_, ?_⟩
  · simp [nRows, kpiTableCanonical, kpiTabStep10, leftJoined]
  · simp [cell, kpiTableCanonical, kpiTabStep10]
    exact hrev'
  · simp [cell, kpiTableCanonical, kpiTabStep10]
    rw [zipWith_getElemD FVal.div FVal.nan _ _ k (hL ois) (hL rs), hrev']
  · simp [cell, kpiTableCanonical, kpiTabStep10]
    rw [zipWith_getElemD FVal.div FVal.nan _ _ k (hL ois) (hL rs), hrev']
    exact div_zero_cases _
  · simp [cell, kpiTableCanonical, kpiTabStep10]
    rw [zipWith_getElemD FVal.div FVal.nan _ _ k (hL nis) (hL rs), hrev']
  · simp [cell, kpiTableCanonical, kpiTabStep10]
    rw [zipWith_getElemD FVal.div FVal.nan _ _ k (hL nis) (hL rs), hrev']
    exact div_zero_cases _

/-- Witness for C3 at a concrete input: one joined row for year 2021
with `Revenue = 0`; the build succeeds and the row survives with
infinite/undefined margins. -/
theorem buildKpiTable_revenue_zero_no_raise_witness :
    ∃ df, build_kpi_table
        (mkIncome [FVal.num 2021] [FVal.num 0] [FVal.num 20]
          [FVal.num 10] [FVal.num 5])
        (mkBalance [FVal.num 2021] [FVal.num 200] [FVal.num 80]
          [FVal.num 120] [FVal.num 30] [FVal.num 40] [FVal.num 90]
          [FVal.num 60]) = Except.ok df ∧
      nRows df = (joinIdx [FVal.num 2021] [FVal.num 2021]).length ∧
      cell df "Revenue" 0 = FVal.num 0 ∧
      cell df "OperatingMargin" 0 =
        FVal.div (cell df "OperatingIncome" 0) (FVal.num 0) ∧
      (cell df "OperatingMargin" 0 = FVal.inf true ∨
        cell df "OperatingMargin" 0 = FVal.inf false ∨
        cell df "OperatingMargin" 0 = FVal.nan) ∧
      cell df "NetMargin" 0 = FVal.div (cell df "NetIncome" 0) (FVal.num 0) ∧
      (cell df "NetMargin" 0 = FVal.inf true ∨
        cell df "NetMargin" 0 = FVal.inf false ∨
        cell df "NetMargin" 0 = FVal.nan) :=
  buildKpiTable_revenue_zero_no_raise
    [FVal.num 2021] [FVal.num 0] [FVal.num 20] [FVal.num 10] [FVal.num 5]
    [FVal.num 2021] [FVal.num 200] [FVal.num 80] [FVal.num 120]
    [FVal.num 30] [FVal.num 40] [FVal.num 90] [FVal.num 60]
    0 (by decide) (by decide)

/-- Claim C4: `load_or_build_kpi_table` returns the persisted artifact
verbatim whenever it exists, without reaching the `build_kpi_table`
call and without any re-validation or staleness check, and invokes the
builder and returns its result exactly when the artifact is absent. -/
theorem loadOrBuild_cache_or_compute :
    ∀ (t income balance : DataFrame),
      (load_or_build_kpi_table (some t) income balance = Except.ok t ∧
        invokesBuilder (some t) = false) ∧
      (load_or_build_kpi_table none income balance =
          build_kpi_table income balance ∧
        invokesBuilder none = true) :=
  fun _ _ _ => ⟨⟨rfl, rfl⟩, rfl, rfl⟩

/-- Claim C5: for every table lacking a `Year` column or lacking the
requested column, `plot_trend` fails with an error naming a column that
is indeed absent (the `Year` column or the requested one), and returns
no updated chart store — both presence checks precede any write, so no
chart artifact is produced on failure. -/
theorem plotTrend_missing_column_error (fs : ChartStore) (df : DataFrame)
    (c yl fn : String) (h : hasCol df "Year" = false ∨ hasCol df c = false) :
    ∃ e, plot_trend fs df c yl fn = Except.error e ∧ hasCol df e = false ∧
      (e = "Year" ∨ e = c) := by
  rcases h with h | h
  · exact ⟨"Year", by simp [plot_trend, h], h, Or.inl rfl⟩
  · by_cases hY : hasCol df "Year" = false
    · exact ⟨"Year", by simp [plot_trend, hY], hY, Or.inl rfl⟩
    · have hY' : hasCol df "Year" = true := by
        cases hv : hasCol df "Year"
        · exact absurd hv hY
        · rfl
      exact ⟨c, by simp [plot_trend, hY', h], h, Or.inr rfl⟩

/-- Witness for C5 at a concrete input: an empty table lacks `Year`,
so plotting `OperatingMargin` fails with an error naming an absent
column. -/
theorem plotTrend_missing_column_error_witness :
    ∃ e, plot_trend [] [] "OperatingMargin" "Operating Margin"
        "operating_margin_trend.png" = Except.error e ∧
      hasCol [] e = false ∧ (e = "Year" ∨ e = "OperatingMargin") :=
  plotTrend_missing_column_error [] [] "OperatingMargin" "Operating Margin"
    "operating_margin_trend.png" (Or.inl (by decide))

/-- Claim C6: when the balance input lacks `TotalCurrentAssets` (resp.
`TotalCurrentLiabilities`), the build fails with an error surfacing the
offending column name at the point the `CurrentRatio` derivation
expects the renamed column: `CurrentAssets` (resp.
`CurrentLiabilities`). -/
theorem buildKpiTable_schema_error_renamed_columns
    (ys rs ois nis ies yb tas tes tls invs ars tcas tcls : List FVal) :
    build_kpi_table (mkIncome ys rs ois nis ies)
        (mkBalanceNoTCA yb tas tes tls invs ars tcls) =
      Except.error "CurrentAssets" ∧
    build_kpi_table (mkIncome ys rs ois nis ies)
        (mkBalanceNoTCL yb tas tes tls invs ars tcas) =
      Except.error "CurrentLiabilities" :=
  ⟨build_noTCA_error ys rs ois nis ies yb tas tes tls invs ars tcls,
   build_noTCL_error ys rs ois nis ies yb tas tes tls invs ars tcas⟩

/-- Counterexample to claim C7 as stated: at this concrete input the
balance table after the pipeline completes differs from the balance
table that was loaded — `balance.rename(columns={...}, inplace=True)`
mutates the loaded balance table's column names in place, so the inputs
are not both read-only. -/
theorem buildKpiTable_mutates_balance_counterexample :
    (pipelineFinalState
        (mkIncome [FVal.num 2021] [FVal.num 100] [FVal.num 20]
          [FVal.num 10] [FVal.num 5])
        (mkBalance [FVal.num 2021] [FVal.num 200] [FVal.num 80]
          [FVal.num 120] [FVal.num 30] [FVal.num 40] [FVal.num 90]
          [FVal.num 60])).2 ≠
      mkBalance [FVal.num 2021] [FVal.num 200] [FVal.num 80]
        [FVal.num 120] [FVal.num 30] [FVal.num 40] [FVal.num 90]
        [FVal.num 60] := by
  decide

/-- Claim C7 (amended): after the build pipeline completes, the income
table is unchanged, and the balance table keeps its cell values and
column order unchanged, but its column names have been renamed in place
(`TotalCurrentAssets → CurrentAssets`,
`TotalCurrentLiabilities → CurrentLiabilities`); it is therefore not
unchanged whenever it has a column the rename touches. -/
theorem buildKpiTable_input_state_amended (income balance : DataFrame) :
    (pipelineFinalState income balance).1 = income ∧
    (pipelineFinalState income balance).2.map Prod.snd =
      balance.map Prod.snd ∧
    (pipelineFinalState income balance).2.map Prod.fst =
      balance.map (fun p => renameName p.1) := by
  refine ⟨rfl, ?_, ?_⟩ <;>
    simp [pipelineFinalState, renameBalance, List.map_map, Function.comp_def]

/-- Claim C8: the KPI derivation logic duplicated between the two
scripts is consistent — on every pair of input tables, the module-level
pipeline of `calculate_kpis.py` and `build_kpi_table` of
`visualize_trends.py` produce the same table (same columns, same rows,
same values). -/
theorem kpi_derivation_duplicates_consistent :
    ∀ income balance : DataFrame,
      calculateKpisPipeline income balance = build_kpi_table income balance :=
  fun _ _ => rfl

/-- Claim C9: `generate_trend_charts` is exactly the sequential
composition of one `plot_trend` call per hardcoded chart triple —
OperatingMargin, NetMargin, ROE, DebtToEquity, in that order — under
the fail-fast bind of `Except`: an error from one call is not caught
and aborts the remaining charts, propagating to the caller. -/
theorem generateTrendCharts_four_charts_in_order
    (fs : ChartStore) (df : DataFrame) :
    generate_trend_charts fs df =
      (plot_trend fs df "OperatingMargin" "Operating Margin"
          "operating_margin_trend.png" >>= fun fs1 =>
        plot_trend fs1 df "NetMargin" "Net Margin"
          "net_margin_trend.png" >>= fun fs2 =>
        plot_trend fs2 df "ROE" "Return on Equity"
          "roe_trend.png" >>= fun fs3 =>
        plot_trend fs3 df "DebtToEquity" "Debt-to-Equity"
          "debt_to_equity_trend.png") := by
  simp [generate_trend_charts, chartList, List.foldlM]

/-- Claim C10: the build is deterministic and idempotent with respect
to its persisted output — running it a second time on identical inputs,
over whatever artifact the first run left, produces the identical
persisted artifact (byte-identical CSV text, rows in the same stable
order) and the identical returned result. -/
theorem buildKpiTable_idempotent_persist (artifact : Option String)
    (income balance : DataFrame) :
    build_and_persist (build_and_persist artifact income balance).1
        income balance =
      build_and_persist artifact income balance := by
  cases h : build_kpi_table income balance <;>
    simp [build_and_persist, h]

end KpiAnalysis
